import Mathlib

/-!
Verification development for the ISOFIT `Instrument` model
(`isofit/instrument.py`).

Shallow embedding conventions:
* numpy float vectors become `Fin n → ℚ` (fixed size) or `List ℚ`
  (dynamic size, where the Python code can mix shapes);
* numpy matrices become `Matrix (Fin n) (Fin n) ℚ` or lists;
* the square roots of the parametric and pushbroom noise models need `ℝ`
  (`Real.sqrt`), so those two models are embedded over `ℝ`;
* in-place mutation of a caller buffer (the SNR branch of `Sy` writes into
  `meas`) is modelled by explicit state passing: the function returns the
  new buffer contents next to its result;
* Python exceptions (TypeError, AttributeError, KeyError, ValueError)
  become `Except String`;
* the external helpers `resample_spectrum` (module `common`) and
  `scipy.signal.convolve` are outside the embedded file and are passed in
  as function parameters, so every theorem quantifies over them.
-/

/-- Module constant `wl_tol = 0.01`: max wavelength difference (nm) that
does not trigger resampling (`instrument.py` line 30). -/
def wl_tol : ℚ := 1 / 100

/-- The clamp applied in the SNR branch of `Sy`:
`bad = meas < 1e-5; meas[bad] = 1e-5` (lines 129-130), one entry at a time. -/
def clampLow (m : ℚ) : ℚ := if m < 1 / 100000 then 1 / 100000 else m

/-- SNR branch of `Instrument.Sy` (lines 128-132), with the in-place update
of the measurement buffer made explicit: returns the buffer contents after
the call together with the covariance matrix.
Source: `meas[bad] = 1e-5; nedl = (1.0 / self.snr) * meas;
return pow(s.diagflat(nedl), 2)` (`pow(_, 2)` is the elementwise square,
which on a diagonal matrix agrees with the matrix square). -/
def snrRun {n : ℕ} (snr : ℚ) (meas : Fin n → ℚ) :
    (Fin n → ℚ) × Matrix (Fin n) (Fin n) ℚ :=
  let meas2 : Fin n → ℚ := fun i => clampLow (meas i)
  let nedl : Fin n → ℚ := fun i => (1 / snr) * meas2 i
  (meas2, fun i j => (Matrix.diagonal nedl i j) ^ 2)

/-- The covariance returned by the SNR branch of `Instrument.Sy`. -/
def Sy_SNR {n : ℕ} (snr : ℚ) (meas : Fin n → ℚ) : Matrix (Fin n) (Fin n) ℚ :=
  (snrRun snr meas).2

/-- Parametric branch of `Instrument.Sy` (lines 134-138): per-channel noise
equivalent delta radiance
`nedl = abs(noise[:,0]*sqrt(noise[:,1]+meas)+noise[:,2]) / sqrt(integrations)`.
`noise i = (a i, b i, c i)` is the coefficient row for channel `i`. -/
noncomputable def nedl_parametric {n : ℕ} (noise : Fin n → ℝ × ℝ × ℝ)
    (integrations : ℝ) (meas : Fin n → ℝ) : Fin n → ℝ :=
  fun i =>
    |(noise i).1 * Real.sqrt ((noise i).2.1 + meas i) + (noise i).2.2| /
      Real.sqrt integrations

/-- Parametric branch of `Instrument.Sy`: `pow(s.diagflat(nedl), 2)`
(elementwise square of the diagonal matrix). -/
noncomputable def Sy_parametric {n : ℕ} (noise : Fin n → ℝ × ℝ × ℝ)
    (integrations : ℝ) (meas : Fin n → ℝ) : Matrix (Fin n) (Fin n) ℝ :=
  fun i j => (Matrix.diagonal (nedl_parametric noise integrations meas) i j) ^ 2

/-- Pushbroom branch of `Instrument.Sy` (lines 140-145).
`covs` is the `(ncols, n_chan, n_chan)` covariance tensor; `meas` is the
measurement argument, which this branch never reads;
`pushbroom_column` models `geom.pushbroom_column` (`none` = Python `None`).
Source: mean over axis 0 when the column is `None`
(`s.squeeze` only drops size-1 axes and leaves every entry value unchanged),
else the slice `covs[column, :, :]`; in both cases the result is divided
entrywise by `sqrt(integrations)`. -/
noncomputable def Sy_pushbroom {ncols n : ℕ}
    (covs : Fin ncols → Matrix (Fin n) (Fin n) ℝ) (integrations : ℝ)
    (meas : Fin n → ℝ) (pushbroom_column : Option (Fin ncols)) :
    Matrix (Fin n) (Fin n) ℝ :=
  let C : Matrix (Fin n) (Fin n) ℝ :=
    match pushbroom_column with
    | none => fun i j => (∑ c, covs c i j) / (ncols : ℝ)
    | some c => covs c
  fun i j => C i j / Real.sqrt integrations

/-- The configuration state assembled by `Instrument.__init__` that the
calibration, sampling and Jacobian methods read.  `bval` has length
`n_chan + 2` when built by the constructor (`s.zeros(self.n_chan+2)`). -/
structure Instrument where
  wl_init : List ℚ
  fwhm_init : List ℚ
  statevec : List String
  init_val : List ℚ
  bounds : List (ℚ × ℚ)
  scale : List ℚ
  bval : List ℚ

/-- `self.n_chan = len(self.wl_init)` (line 43). -/
def Instrument.n_chan (inst : Instrument) : ℕ := inst.wl_init.length

/-- `self.n_state = len(self.statevec)` (line 51). -/
def Instrument.n_state (inst : Instrument) : ℕ := inst.statevec.length

/-- `self.calibration_fixed` (lines 110-111): true iff neither `FWHM_SCL`
nor `WL_SHIFT` is a retrieved state variable. -/
def calibration_fixed (inst : Instrument) : Bool :=
  !(inst.statevec.contains "FWHM_SCL") && !(inst.statevec.contains "WL_SHIFT")

/-- `Instrument.calibration` (lines 206-215): start from the nominal
`(wl_init, fwhm_init)`; if `FWHM_SCL` is retrieved add its state value to
every FWHM; if `WL_SHIFT` is retrieved add its state value to every
wavelength.  The source indexes `x_instrument[ind]` directly (caller
contract: `len(x_instrument) = n_state`); out-of-range reads are given the
default 0 here. -/
def calibration (inst : Instrument) (x_instrument : List ℚ) :
    List ℚ × List ℚ :=
  let fwhm :=
    if "FWHM_SCL" ∈ inst.statevec then
      inst.fwhm_init.map
        (fun f => f + x_instrument.getD (inst.statevec.indexOf "FWHM_SCL") 0)
    else inst.fwhm_init
  let wl :=
    if "WL_SHIFT" ∈ inst.statevec then
      inst.wl_init.map
        (fun w => w + x_instrument.getD (inst.statevec.indexOf "WL_SHIFT") 0)
    else inst.wl_init
  (wl, fwhm)

/-- `Instrument.sample` (lines 188-197), one-dimensional radiance input.
Fast path (line 190): if `calibration_fixed` and every entry of
`wl_init - wl_hi` is `< wl_tol` (a signed comparison in the source, no
absolute value), return `rdn_hi` unchanged.  Otherwise compute the
calibrated grid and resample; `resample` stands for the external
`resample_spectrum(spectrum, source_wl, target_wl, target_fwhm)`. -/
def sample (inst : Instrument)
    (resample : List ℚ → List ℚ → List ℚ → List ℚ → List ℚ)
    (x_instrument wl_hi rdn_hi : List ℚ) : List ℚ :=
  if (calibration_fixed inst &&
      (List.zipWith (fun w h => w - h) inst.wl_init wl_hi).all
        (fun d => decide (d < wl_tol))) = true then
    rdn_hi
  else
    let wf := calibration inst x_instrument
    resample rdn_hi wl_hi wf.1 wf.2

/-- `Instrument.Sa` (lines 117-121).  With `n_state = 0` the source returns
`s.zeros((0,0))` (embedded as the empty list of rows).  Otherwise it
evaluates `pow(self.prior_sigma, 2)` — but no statement in the file ever
assigns `self.prior_sigma`, so the call raises `AttributeError`. -/
def Sa (inst : Instrument) : Except String (List (List ℚ)) :=
  if inst.statevec.length = 0 then .ok []
  else .error "AttributeError: Instrument instance has no attribute prior_sigma"

/-- `Instrument.dmeas_dinstrument` (lines 147-161), result stored as a list
of rows (`s.zeros((n_chan, n_state))` is row-major).  With `n_state = 0`
the zero matrix of shape `(n_chan, 0)` is returned (line 152-153).
Otherwise the source computes `meas` (line 155) and then evaluates
`range(self.statevec)` at the loop header (line 156): `range` applied to a
list raises `TypeError`, so the call never produces a Jacobian. -/
def dmeas_dinstrument (inst : Instrument)
    (resample : List ℚ → List ℚ → List ℚ → List ℚ → List ℚ)
    (x_instrument wl_hi rdn_hi : List ℚ) :
    Except String (List (List ℚ)) :=
  if inst.statevec.length = 0 then
    .ok (List.replicate inst.wl_init.length ([] : List ℚ))
  else
    let meas := sample inst resample x_instrument wl_hi rdn_hi
    .error "TypeError: range expects an integer argument, not a list"

/-- `Instrument.dmeas_dinstrumentb` (lines 163-186), result stored as a
list of COLUMNS (the source assigns whole columns).
`hstack((diagflat(meas), zeros((n_chan, 2))))` gives `n_chan` diagonal
columns followed by two zero columns; then column `-2` is overwritten with
`sample(x, wl_hi, hstack((diff(rdn_hi), [0])))` when `bval[-2] > 1e-6`, and
column `-1` with `convolve(meas, ssrf, mode=same) - meas` when
`bval[-1] > 1e-6`.  `blur` stands for the external stray-light convolution
`convolve(·, srf(arange(-10,11), 0, 4), mode=same)`. -/
def dmeas_dinstrumentb (inst : Instrument)
    (resample : List ℚ → List ℚ → List ℚ → List ℚ → List ℚ)
    (blur : List ℚ → List ℚ) (x_instrument wl_hi rdn_hi : List ℚ) :
    List (List ℚ) :=
  let n := inst.wl_init.length
  let meas := sample inst resample x_instrument wl_hi rdn_hi
  let cols0 : List (List ℚ) :=
    (List.range n).map
        (fun j => (List.range n).map (fun i => if i = j then meas.getD j 0 else 0))
      ++ [List.replicate n 0, List.replicate n 0]
  let cols1 :=
    if 1 / 1000000 < inst.bval.getD (inst.bval.length - 2) 0 then
      cols0.set n
        (sample inst resample x_instrument wl_hi
          (List.zipWith (fun a b => b - a) rdn_hi rdn_hi.tail ++ [0]))
    else cols0
  if 1 / 1000000 < inst.bval.getD (inst.bval.length - 1) 0 then
    cols1.set (n + 1) (List.zipWith (fun a b => a - b) (blur meas) meas)
  else cols1

/-- Reshape of `D[covariances]` to `(ncols, n_chan, n_chan)` (lines 80-81),
C-order as in numpy; `none` models the `ValueError` numpy raises when the
total size does not match. -/
def reshapeCovs (ncols n : ℕ) (xs : List ℚ) : Option (List (List (List ℚ))) :=
  if xs.length = ncols * (n * n) then
    some ((List.range ncols).map (fun c =>
      (List.range n).map (fun i =>
        (List.range n).map (fun j => xs.getD (c * (n * n) + i * n + j) 0))))
  else none

/-- The pushbroom branch of `Instrument.__init__` (lines 72-81) after the
matrix container has been loaded: `bands` and `ncols` are the scalar
metadata fields, `covariances` the flat stacked covariance data.  The
source raises `ValueError` when `n_chan != sqrt(bands)`; over the naturals
that comparison is `n_chan * n_chan != bands`. -/
def pushbroomInit (n_chan bands ncols : ℕ) (covariances : List ℚ) :
    Except String (List (List (List ℚ))) :=
  if n_chan * n_chan ≠ bands then
    .error "Noise model does not match wavelength # bands"
  else
    match reshapeCovs ncols n_chan covariances with
    | some covs => .ok covs
    | none => .error "ValueError: cannot reshape covariances"

/-- The special-slot part of the `unknowns` handling in
`Instrument.__init__` (lines 103-108), acting on the zero-initialised last
two entries of `bval` and returning their final values
`(bval[-2], bval[-1])`.  `unknowns` is the `config[unknowns]` mapping
(association list); `strayTopLevel` records whether the key
`stray_srf_uncertainty` is present at the TOP level of `config` — the
source tests `if stray_srf_uncertainty in config:` (line 107), not the
`unknowns` section, and then reads the value from
`config[unknowns][stray_srf_uncertainty]` (a `KeyError` when absent
there). -/
def bvalSpecial (unknowns : List (String × ℚ)) (strayTopLevel : Bool) :
    Except String (ℚ × ℚ) :=
  let b2 :=
    match unknowns.lookup "wavelength_calibration_uncertainty" with
    | some v => v
    | none => 0
  if strayTopLevel then
    match unknowns.lookup "stray_srf_uncertainty" with
    | some v => .ok (b2, v)
    | none => .error "KeyError: stray_srf_uncertainty"
  else .ok (b2, 0)

/-- A concrete three-channel instrument with no retrieved calibration
state, used to instantiate hypotheses at concrete inputs. -/
def instC7 : Instrument :=
  { wl_init := [500, 510, 520], fwhm_init := [5, 5, 5], statevec := [],
    init_val := [], bounds := [], scale := [], bval := [0, 0, 0, 0, 0] }

/-- A concrete two-channel instrument with `bval` of length `n_chan + 2`
(all uncertainties zero), used to instantiate hypotheses at concrete
inputs. -/
def instC5 : Instrument :=
  { wl_init := [500, 510], fwhm_init := [5, 5], statevec := [],
    init_val := [], bounds := [], scale := [], bval := [0, 0, 0, 0] }

/-- C1: For the SNR noise model, `Sy(meas, geom)` clamps every entry of
`meas` below `1e-5` up to `1e-5`, sets `nedl = meas / snr`, and returns
`diag(nedl)^2`; in particular with `n_chan = 3`, `snr = 100` and
`meas = [0.2, 0.3, 0.4]` the result is `diag([4e-6, 9e-6, 1.6e-5])`. -/
theorem Sy_SNR_spec :
    (∀ (n : ℕ) (snr : ℚ) (meas : Fin n → ℚ),
        Sy_SNR snr meas
          = Matrix.diagonal (fun i => (clampLow (meas i) / snr) ^ 2)) ∧
    Sy_SNR 100 (![2/10, 3/10, 4/10] : Fin 3 → ℚ)
      = Matrix.diagonal ![4/1000000, 9/1000000, 16/1000000] := by
  have hgen : ∀ (n : ℕ) (snr : ℚ) (meas : Fin n → ℚ),
      Sy_SNR snr meas
        = Matrix.diagonal (fun i => (clampLow (meas i) / snr) ^ 2) := by
    intro n snr meas
    funext i j
    by_cases h : i = j
    · subst h
      simp only [Sy_SNR, snrRun, Matrix.diagonal_apply_eq]
      ring
    · simp [Sy_SNR, snrRun, Matrix.diagonal_apply_ne _ h]
  refine ⟨hgen, ?_⟩
  rw [hgen, Matrix.diagonal_eq_diagonal_iff]
  intro i
  fin_cases i <;> simp [clampLow] <;> norm_num

/-- C10: the SNR branch of `Sy` mutates the caller measurement buffer in
place, modelled here by the buffer returned in `(snrRun snr meas).1`: after
the call every entry that was below `1e-5` reads `1e-5` and every other
entry is unchanged.  The configuration (`snr`) is taken by value and the
function writes nothing else, so no other model field can change. -/
theorem snrRun_mutates_meas (n : ℕ) (snr : ℚ) (meas : Fin n → ℚ) :
    (∀ i, meas i < 1 / 100000 → (snrRun snr meas).1 i = 1 / 100000) ∧
    (∀ i, ¬ meas i < 1 / 100000 → (snrRun snr meas).1 i = meas i) := by
  constructor <;> intro i h
  · simp only [snrRun, clampLow]
    rw [if_pos h]
  · simp only [snrRun, clampLow]
    rw [if_neg h]

/-- Witness for C10 at `snr = 100`, `meas = [0, 0.2]`: the first entry is
below the floor and reads `1e-5` after the call, the second is unchanged. -/
theorem snrRun_mutates_meas_witness :
    ((![0, 2/10] : Fin 2 → ℚ) 0 < 1 / 100000 ∧
      (snrRun 100 ![0, 2/10]).1 0 = 1 / 100000) ∧
    (¬ (![0, 2/10] : Fin 2 → ℚ) 1 < 1 / 100000 ∧
      (snrRun 100 ![0, 2/10]).1 1 = (![0, 2/10] : Fin 2 → ℚ) 1) :=
  ⟨⟨by norm_num [Matrix.cons_val_zero],
    (snrRun_mutates_meas 2 100 ![0, 2/10]).1 0
      (by norm_num [Matrix.cons_val_zero])⟩,
   ⟨by norm_num [Matrix.cons_val_one, Matrix.head_cons],
    (snrRun_mutates_meas 2 100 ![0, 2/10]).2 1
      (by norm_num [Matrix.cons_val_one, Matrix.head_cons])⟩⟩

/-- C3: `Sa()` does return the `0×0` matrix when `n_state = 0`, but for any
instrument with `n_state > 0` it evaluates `self.prior_sigma`, which is
never assigned anywhere in the file, so the call raises `AttributeError`
instead of returning `diag(scale^2)` as the claim states. -/
theorem Sa_prior_sigma_missing :
    Sa { wl_init := [500], fwhm_init := [5], statevec := [], init_val := [],
         bounds := [], scale := [], bval := [0, 0, 0] } = .ok [] ∧
    Sa { wl_init := [500], fwhm_init := [5], statevec := ["GROW"],
         init_val := [1], bounds := [(0, 2)], scale := [1], bval := [0, 0, 0] }
      = .error "AttributeError: Instrument instance has no attribute prior_sigma" :=
  ⟨rfl, rfl⟩

/-- C2: `dmeas_dinstrument` returns the `(n_chan, 0)` zero matrix when
`n_state = 0` (here `n_chan = 2`, two empty rows), but for `n_state > 0`
the loop header `range(self.statevec)` applies `range` to a list and
raises `TypeError`, so no finite-difference column is ever computed. -/
theorem dmeas_dinstrument_range_bug :
    dmeas_dinstrument
        { wl_init := [500, 510], fwhm_init := [5, 5], statevec := [],
          init_val := [], bounds := [], scale := [], bval := [0, 0, 0, 0] }
        (fun r _ _ _ => r) [] [500, 510] [1, 2] = .ok [[], []] ∧
    dmeas_dinstrument
        { wl_init := [500, 510], fwhm_init := [5, 5], statevec := ["GROW"],
          init_val := [1], bounds := [(0, 2)], scale := [1],
          bval := [0, 0, 0, 0] }
        (fun r _ _ _ => r) [1] [500, 510] [1, 2]
      = .error "TypeError: range expects an integer argument, not a list" :=
  ⟨rfl, rfl⟩

/-- C9 counterexample: with the `unknowns` section containing
`stray_srf_uncertainty = 1/2` but no top-level config key of that name,
construction leaves `bval[-1] = 0` instead of copying the value `1/2`, so
the claim as stated fails. -/
theorem bvalSpecial_counterexample :
    bvalSpecial [("stray_srf_uncertainty", (1 : ℚ) / 2)] false = .ok (0, 0) ∧
    (1 : ℚ) / 2 ≠ 0 :=
  ⟨rfl, by norm_num⟩

/-- C9 amended: `wavelength_calibration_uncertainty` is copied into
`bval[-2]` whenever present in the `unknowns` section (zero otherwise);
`stray_srf_uncertainty` is copied into `bval[-1]` only when that key is
present at the TOP level of the config, in which case the value is read
from the `unknowns` section and a `KeyError` is raised when it is absent
there; when the top-level key is absent the slot stays zero even if the
key is present in `unknowns`. -/
theorem bvalSpecial_amended (unknowns : List (String × ℚ)) (strayTop : Bool) :
    (strayTop = false →
      bvalSpecial unknowns strayTop
        = .ok ((unknowns.lookup "wavelength_calibration_uncertainty").getD 0,
               0)) ∧
    (∀ v, strayTop = true →
      unknowns.lookup "stray_srf_uncertainty" = some v →
      bvalSpecial unknowns strayTop
        = .ok ((unknowns.lookup "wavelength_calibration_uncertainty").getD 0,
               v)) ∧
    (strayTop = true →
      unknowns.lookup "stray_srf_uncertainty" = none →
      bvalSpecial unknowns strayTop
        = .error "KeyError: stray_srf_uncertainty") := by
  refine ⟨?_, ?_, ?_⟩
  · intro h
    subst h
    simp only [bvalSpecial, if_false, Bool.false_eq_true, ite_false]
    cases unknowns.lookup "wavelength_calibration_uncertainty" <;> simp
  · intro v h hv
    subst h
    simp only [bvalSpecial, hv, if_true, ite_true]
    cases unknowns.lookup "wavelength_calibration_uncertainty" <;> simp
  · intro h hv
    subst h
    simp [bvalSpecial, hv]

/-- Witness for C9 amended, all three branches at concrete configs. -/
theorem bvalSpecial_amended_witness :
    (bvalSpecial [("wavelength_calibration_uncertainty", (3 : ℚ) / 10)] false
      = .ok (3 / 10, 0)) ∧
    (bvalSpecial [("stray_srf_uncertainty", (1 : ℚ) / 4)] true
      = .ok (0, 1 / 4)) ∧
    (bvalSpecial [] true = .error "KeyError: stray_srf_uncertainty") :=
  ⟨((bvalSpecial_amended
        [("wavelength_calibration_uncertainty", (3 : ℚ) / 10)] false).1
      rfl).trans rfl,
   (((bvalSpecial_amended [("stray_srf_uncertainty", (1 : ℚ) / 4)] true).2.1
      (1 / 4) rfl rfl).trans rfl),
   ((bvalSpecial_amended [] true).2.2 rfl rfl)⟩

/-- C4: for the pushbroom noise model, `Sy(meas, geom)` returns the mean
over the column axis of the `(ncols, n_chan, n_chan)` covariance tensor
when `geom.pushbroom_column` is `None`, and exactly the tensor slice at the
given column index otherwise, in both cases scaled by
`1/sqrt(integrations)`; the result never depends on `meas`. -/
theorem Sy_pushbroom_dispatch (ncols n : ℕ)
    (covs : Fin ncols → Matrix (Fin n) (Fin n) ℝ) (integrations : ℝ)
    (meas meas2 : Fin n → ℝ) :
    (Sy_pushbroom covs integrations meas none
      = (Real.sqrt integrations)⁻¹ • ((ncols : ℝ)⁻¹ • ∑ c, covs c)) ∧
    (∀ c, Sy_pushbroom covs integrations meas (some c)
      = (Real.sqrt integrations)⁻¹ • covs c) ∧
    (∀ col, Sy_pushbroom covs integrations meas col
      = Sy_pushbroom covs integrations meas2 col) := by
  refine ⟨?_, ?_, fun col => rfl⟩
  · funext i j
    simp only [Sy_pushbroom, Matrix.smul_apply, Matrix.sum_apply, smul_eq_mul]
    ring
  · intro c
    funext i j
    simp only [Sy_pushbroom, Matrix.smul_apply, smul_eq_mul]
    ring

/-- C6: for the parametric noise model, with a fixed measurement vector and
coefficient table, multiplying `integrations` by 4 divides every `nedl`
entry by exactly 2, and hence every entry of `Sy` (in particular every
diagonal entry) by exactly 4. -/
theorem parametric_integrations_quarter (n : ℕ) (noise : Fin n → ℝ × ℝ × ℝ)
    (integrations : ℝ) (meas : Fin n → ℝ) (hI : 0 < integrations) :
    (∀ i, nedl_parametric noise (4 * integrations) meas i
      = nedl_parametric noise integrations meas i / 2) ∧
    (∀ i j, Sy_parametric noise (4 * integrations) meas i j
      = Sy_parametric noise integrations meas i j / 4) := by
  have hsqrt4 : Real.sqrt 4 = 2 := by
    rw [show (4 : ℝ) = 2 ^ 2 by norm_num, Real.sqrt_sq (by norm_num)]
  have hroot : Real.sqrt (4 * integrations) = 2 * Real.sqrt integrations := by
    rw [Real.sqrt_mul (by norm_num) integrations, hsqrt4]
  have hnedl : ∀ i, nedl_parametric noise (4 * integrations) meas i
      = nedl_parametric noise integrations meas i / 2 := by
    intro i
    simp only [nedl_parametric, hroot]
    rw [div_div]
    ring_nf
  refine ⟨hnedl, ?_⟩
  intro i j
  by_cases h : i = j
  · subst h
    simp only [Sy_parametric, Matrix.diagonal_apply_eq, hnedl]
    ring
  · simp [Sy_parametric, Matrix.diagonal_apply_ne _ h]

/-- Witness for C6 at a one-channel table `noise = (1, 1, 1)`,
`meas = 1`, `integrations = 1`. -/
theorem parametric_integrations_quarter_witness :
    (0 : ℝ) < 1 ∧
    nedl_parametric (fun _ : Fin 1 => ((1 : ℝ), (1 : ℝ), (1 : ℝ))) (4 * 1)
        (fun _ => 1) 0
      = nedl_parametric (fun _ : Fin 1 => ((1 : ℝ), (1 : ℝ), (1 : ℝ))) 1
          (fun _ => 1) 0 / 2 :=
  ⟨by norm_num,
   (parametric_integrations_quarter 1 (fun _ => ((1 : ℝ), (1 : ℝ), (1 : ℝ)))
      1 (fun _ => 1) (by norm_num)).1 0⟩

/-- C7: if `calibration_fixed` is true and every entry of
`wl_init - wl_hi` is below the tolerance `wl_tol = 0.01` (which holds in
particular when `wl_hi` equals `wl_init` exactly), then `sample` returns
`rdn_hi` unchanged, for every state vector and radiance input. -/
theorem sample_fast_path (inst : Instrument)
    (resample : List ℚ → List ℚ → List ℚ → List ℚ → List ℚ)
    (x_instrument wl_hi rdn_hi : List ℚ)
    (hfix : calibration_fixed inst = true)
    (htol : ∀ d ∈ List.zipWith (fun w h => w - h) inst.wl_init wl_hi,
      d < wl_tol) :
    sample inst resample x_instrument wl_hi rdn_hi = rdn_hi := by
  have hb : (calibration_fixed inst &&
      (List.zipWith (fun w h => w - h) inst.wl_init wl_hi).all
        (fun d => decide (d < wl_tol))) = true := by
    rw [hfix]
    simp only [Bool.true_and, List.all_eq_true]
    intro d hd
    exact decide_eq_true (htol d hd)
  simp [sample, hb]

/-- Witness for C7: `instC7` retrieves no calibration state and
`wl_hi = wl_init = [500, 510, 520]` exactly, so `sample` is the
identity on the radiance `[1, 2, 3]`. -/
theorem sample_fast_path_witness :
    calibration_fixed instC7 = true ∧
    (∀ d ∈ List.zipWith (fun w h => w - h) instC7.wl_init [500, 510, 520],
      d < wl_tol) ∧
    sample instC7 (fun _ _ _ _ => []) [7] [500, 510, 520] [1, 2, 3]
      = [1, 2, 3] :=
  ⟨rfl,
   by
    intro d hd
    simp only [instC7] at hd
    norm_num at hd
    rw [hd, wl_tol]
    norm_num,
   sample_fast_path instC7 (fun _ _ _ _ => []) [7] [500, 510, 520] [1, 2, 3]
     rfl
     (by
      intro d hd
      simp only [instC7] at hd
      norm_num at hd
      rw [hd, wl_tol]
      norm_num)⟩

/-- C8: pushbroom construction raises the fatal configuration error
`ValueError` when the declared band count is inconsistent with `n_chan^2`
(the source compares `n_chan != sqrt(bands)`), aborting construction; when
it is consistent (and the flat covariance data has the declared size) the
stacked covariances are reshaped to `(ncols, n_chan, n_chan)` and
construction succeeds. -/
theorem pushbroomInit_band_check (n_chan bands ncols : ℕ)
    (covariances : List ℚ) :
    (n_chan * n_chan ≠ bands →
      pushbroomInit n_chan bands ncols covariances
        = .error "Noise model does not match wavelength # bands") ∧
    (n_chan * n_chan = bands →
      covariances.length = ncols * (n_chan * n_chan) →
      ∃ covs, pushbroomInit n_chan bands ncols covariances = .ok covs ∧
        covs.length = ncols ∧
        ∀ M ∈ covs, M.length = n_chan ∧ ∀ r ∈ M, r.length = n_chan) := by
  constructor
  · intro hne
    simp [pushbroomInit, hne]
  · intro heq hlen
    refine ⟨(List.range ncols).map (fun c =>
      (List.range n_chan).map (fun i =>
        (List.range n_chan).map
          (fun j => covariances.getD (c * (n_chan * n_chan) + i * n_chan + j) 0))),
      ?_, ?_, ?_⟩
    · simp [pushbroomInit, heq, reshapeCovs, hlen]
    · simp
    · intro M hM
      simp only [List.mem_map] at hM
      obtain ⟨c, _, rfl⟩ := hM
      refine ⟨by simp, ?_⟩
      intro r hr
      simp only [List.mem_map] at hr
      obtain ⟨i, _, rfl⟩ := hr
      simp

/-- Witness for C8: `n_chan = 2` with `bands = 5` is rejected with the
configuration error; `n_chan = 2`, `bands = 4`, `ncols = 1` with four
covariance entries is reshaped successfully. -/
theorem pushbroomInit_band_check_witness :
    (2 * 2 ≠ 5 ∧
      pushbroomInit 2 5 1 []
        = .error "Noise model does not match wavelength # bands") ∧
    (2 * 2 = 4 ∧ ([(1 : ℚ), 2, 3, 4] : List ℚ).length = 1 * (2 * 2) ∧
      ∃ covs, pushbroomInit 2 4 1 [1, 2, 3, 4] = .ok covs ∧
        covs.length = 1 ∧
        ∀ M ∈ covs, M.length = 2 ∧ ∀ r ∈ M, r.length = 2) :=
  ⟨⟨by norm_num, (pushbroomInit_band_check 2 5 1 []).1 (by norm_num)⟩,
   ⟨rfl, rfl, (pushbroomInit_band_check 2 4 1 [1, 2, 3, 4]).2 rfl rfl⟩⟩

/-- Column `j < n` of a column matrix built as `n` mapped columns followed
by two trailing columns. -/
theorem colsGetD_left {n j : ℕ} (f : ℕ → List ℚ) (z1 z2 : List ℚ)
    (hj : j < n) :
    ((List.range n).map f ++ [z1, z2]).getD j [] = f j := by
  rw [List.getD_eq_getElem?_getD,
    List.getElem?_append_left (by simpa using hj),
    List.getElem?_map, List.getElem?_range hj]
  rfl

/-- Column `n` of the same shape of column matrix is the first trailing
column. -/
theorem colsGetD_mid (n : ℕ) (f : ℕ → List ℚ) (z1 z2 : List ℚ) :
    ((List.range n).map f ++ [z1, z2]).getD n [] = z1 := by
  rw [List.getD_eq_getElem?_getD, List.getElem?_append_right (by simp)]
  simp

/-- Column `n + 1` of the same shape of column matrix is the second
trailing column. -/
theorem colsGetD_last (n : ℕ) (f : ℕ → List ℚ) (z1 z2 : List ℚ) :
    ((List.range n).map f ++ [z1, z2]).getD (n + 1) [] = z2 := by
  rw [List.getD_eq_getElem?_getD, List.getElem?_append_right (by simp)]
  simp

/-- Overwriting column `k` leaves every other column unchanged. -/
theorem colsGetD_set_ne (l : List (List ℚ)) (k j : ℕ) (v : List ℚ)
    (h : k ≠ j) :
    (l.set k v).getD j [] = l.getD j [] := by
  rw [List.getD_eq_getElem?_getD, List.getElem?_set_ne h,
    ← List.getD_eq_getElem?_getD]

/-- C5: with `meas = sample(state, wl_hi, rdn_hi)`, the first `n_chan`
columns of `dmeas_dinstrumentb(state, wl_hi, rdn_hi)` are exactly the
columns of `diag(meas)`; the spectral-shift column `n_chan` stays zero
unless `bval[n_chan]` exceeds `1e-6`, and the stray-light column
`n_chan + 1` stays zero unless `bval[n_chan + 1]` exceeds `1e-6` — for
every state, radiance input, resampling primitive and stray-light blur. -/
theorem dmeas_dinstrumentb_columns (inst : Instrument)
    (resample : List ℚ → List ℚ → List ℚ → List ℚ → List ℚ)
    (blur : List ℚ → List ℚ) (x_instrument wl_hi rdn_hi : List ℚ)
    (hb : inst.bval.length = inst.wl_init.length + 2) :
    (∀ j < inst.wl_init.length,
      (dmeas_dinstrumentb inst resample blur x_instrument wl_hi rdn_hi).getD
          j []
        = (List.range inst.wl_init.length).map
            (fun i => if i = j
              then (sample inst resample x_instrument wl_hi rdn_hi).getD j 0
              else 0)) ∧
    (inst.bval.getD inst.wl_init.length 0 ≤ 1 / 1000000 →
      (dmeas_dinstrumentb inst resample blur x_instrument wl_hi rdn_hi).getD
          inst.wl_init.length []
        = List.replicate inst.wl_init.length 0) ∧
    (inst.bval.getD (inst.wl_init.length + 1) 0 ≤ 1 / 1000000 →
      (dmeas_dinstrumentb inst resample blur x_instrument wl_hi rdn_hi).getD
          (inst.wl_init.length + 1) []
        = List.replicate inst.wl_init.length 0) := by
  have h2idx : inst.bval.length - 2 = inst.wl_init.length := by omega
  have h1idx : inst.bval.length - 1 = inst.wl_init.length + 1 := by omega
  simp only [dmeas_dinstrumentb, h2idx, h1idx]
  refine ⟨?_, ?_, ?_⟩
  · intro j hj
    by_cases hA :
        (1 : ℚ) / 1000000 < inst.bval.getD inst.wl_init.length 0 <;>
      by_cases hB :
          (1 : ℚ) / 1000000 < inst.bval.getD (inst.wl_init.length + 1) 0 <;>
      simp only [hA, hB, ite_true, ite_false] <;>
      first
        | rw [colsGetD_set_ne _ _ _ _ (by omega),
            colsGetD_set_ne _ _ _ _ (by omega), colsGetD_left _ _ _ hj]
        | rw [colsGetD_set_ne _ _ _ _ (by omega), colsGetD_left _ _ _ hj]
        | rw [colsGetD_left _ _ _ hj]
  · intro hle
    have hA : ¬ (1 : ℚ) / 1000000 < inst.bval.getD inst.wl_init.length 0 :=
      not_lt.mpr hle
    by_cases hB :
        (1 : ℚ) / 1000000 < inst.bval.getD (inst.wl_init.length + 1) 0 <;>
      simp only [hA, hB, ite_true, ite_false] <;>
      first
        | rw [colsGetD_set_ne _ _ _ _ (by omega), colsGetD_mid]
        | rw [colsGetD_mid]
  · intro hle
    have hB :
        ¬ (1 : ℚ) / 1000000 < inst.bval.getD (inst.wl_init.length + 1) 0 :=
      not_lt.mpr hle
    by_cases hA :
        (1 : ℚ) / 1000000 < inst.bval.getD inst.wl_init.length 0 <;>
      simp only [hA, hB, ite_true, ite_false] <;>
      first
        | rw [colsGetD_set_ne _ _ _ _ (by omega), colsGetD_last]
        | rw [colsGetD_last]

/-- Witness for C5 on `instC5` (two channels, all uncertainties zero, so
both guard columns stay zero), with the identity resampler and blur. -/
theorem dmeas_dinstrumentb_columns_witness :
    (instC5.bval.length = instC5.wl_init.length + 2) ∧
    (0 < instC5.wl_init.length) ∧
    ((dmeas_dinstrumentb instC5 (fun r _ _ _ => r) (fun l => l) []
        [500, 510] [1, 2]).getD 0 []
      = (List.range instC5.wl_init.length).map
          (fun i => if i = 0
            then (sample instC5 (fun r _ _ _ => r) [] [500, 510] [1, 2]).getD
                0 0
            else 0)) ∧
    (instC5.bval.getD instC5.wl_init.length 0 ≤ 1 / 1000000) ∧
    ((dmeas_dinstrumentb instC5 (fun r _ _ _ => r) (fun l => l) []
        [500, 510] [1, 2]).getD instC5.wl_init.length []
      = List.replicate instC5.wl_init.length 0) :=
  ⟨rfl, by norm_num [instC5],
   (dmeas_dinstrumentb_columns instC5 (fun r _ _ _ => r) (fun l => l) []
      [500, 510] [1, 2] rfl).1 0 (by norm_num [instC5]),
   by norm_num [instC5],
   (dmeas_dinstrumentb_columns instC5 (fun r _ _ _ => r) (fun l => l) []
      [500, 510] [1, 2] rfl).2.1 (by norm_num [instC5])⟩
